import Mathlib

/-!
Shallow embedding of the lock-in-dj focus control loop.

Sources embedded here:
- `src/extension/src/background/music_controller.js` (focus scorer section,
  `computeFocusScore`, `MODE_CONFIG`, `pruneTimestamps`, `updateEMA`,
  `computeTrendDelta`)
- `src/extension/src/background/decision_engine.js` (`shouldIntervene`,
  `selectArmUCB`, `selectIntervention`, `updateBanditArm`, `deltaToReward`,
  `evaluateIntervention`, `COOLDOWNS`, `THRESHOLDS`, `TREND_THRESHOLDS`)
- `src/extension/src/background/service_worker.js` (`tick`, `stopSession`,
  constants `EVAL_WINDOW_MS`, `HISTORY_MAX_ENTRIES`)
- the storage module (`DEFAULT_STATE.policy`, `getCategoryPenalty`)

Modelling conventions: JS numbers that only ever hold exact decimal values
(scores, penalties, bandit values, rewards) are embedded as `Rat`;
timestamps and millisecond durations as `Int`; JS `null`-able fields as
`Option`; JS objects used as string-keyed maps as association lists in
insertion order (`Object.entries` iteration order).  `Date.now()` is passed
in as an explicit `now` parameter.  The UCB1 selector uses `Real.sqrt` and
`Real.log` mirroring `Math.sqrt` / `Math.log`, hence that part of the
embedding is noncomputable.
-/

namespace LockInDJ

/-- `clamp01` from music_controller.js: `Math.max(0, Math.min(1, x))`. -/
def clamp01 (x : ℚ) : ℚ := max 0 (min 1 x)

/-- `clamp` from music_controller.js: `Math.max(min, Math.min(max, x))`. -/
def qclamp (x lo hi : ℚ) : ℚ := max lo (min hi x)

/-- Integer clamp, used for the final focus score after `Math.round`. -/
def intClamp (z lo hi : ℤ) : ℤ := max lo (min hi z)

/-- One itemized penalty or bonus entry, e.g. `{ type: 'tabSwitch', value }`;
`category` is the optional extra field carried by site items. -/
structure Item where
  type : String
  category : Option String
  value : ℚ
  deriving DecidableEq, Repr

/-- Sum of the `value` fields of an itemized list. -/
def sumItems (items : List Item) : ℚ := (items.map Item.value).sum

/-- Per-site accumulated data: `{ category, totalMs, lastStart }`.
`lastStart = 0` stands for the JS `null`/absent value (the source only
tests it for truthiness). -/
structure SiteData where
  category : String
  totalMs : ℤ
  lastStart : ℤ
  deriving DecidableEq, Repr

/-- The `signals` object of the persisted state (fields the core reads). -/
structure Signals where
  tabSwitches : List ℤ
  siteTime : List (String × SiteData)
  currentSite : Option String
  currentCategory : Option String
  lastMouseMove : ℤ
  lastKeyPress : ℤ
  scrollCount : ℤ
  isActivelyTyping : Bool
  isDoomscrolling : Bool
  visionEnabled : Bool
  facePresent : Bool
  lookingAway : Bool
  visionAttentionScore : ℚ
  faceMissingMs : ℤ
  lookingAwayMs : ℤ
  deriving DecidableEq, Repr

/-- The settings fields consumed by the decision engine. -/
structure Settings where
  nuclearEnabled : Bool
  autoMusicSwitch : Option Bool
  autoMusicThreshold : ℚ
  deriving DecidableEq, Repr

/-- `MODE_CONFIG` entry (music_controller.js). -/
structure ModeConfig where
  tabSwitchThreshold : ℚ
  idleThresholdMs : ℤ
  typingBonus : ℚ
  baseScore : ℚ
  deriving DecidableEq, Repr

/-- `MODE_CONFIG[mode] || MODE_CONFIG.normal` (music_controller.js). -/
def modeConfig (mode : String) : ModeConfig :=
  if mode = "gentle" then ⟨15, 45000, 1/10, 100⟩
  else if mode = "strict" then ⟨5, 20000, 1/5, 100⟩
  else ⟨10, 30000, 3/20, 100⟩

/-- `getCategoryPenalty(category, mode)` from the storage module:
`penalties[mode]?.[category] ?? 0`. -/
def getCategoryPenalty (category mode : String) : ℚ :=
  if mode = "gentle" then
    if category = "productive" then 3/20
    else if category = "socialMedia" then -3/10
    else if category = "entertainment" then -1/4
    else if category = "games" then -7/20
    else if category = "shopping" then -1/10
    else if category = "news" then -1/20
    else if category = "blocked" then -1/2
    else 0
  else if mode = "normal" then
    if category = "productive" then 1/5
    else if category = "socialMedia" then -1/2
    else if category = "entertainment" then -2/5
    else if category = "games" then -3/5
    else if category = "shopping" then -1/5
    else if category = "news" then -1/10
    else if category = "blocked" then -7/10
    else 0
  else if mode = "strict" then
    if category = "productive" then 1/4
    else if category = "socialMedia" then -4/5
    else if category = "entertainment" then -7/10
    else if category = "games" then -1
    else if category = "shopping" then -2/5
    else if category = "news" then -1/5
    else if category = "blocked" then -1
    else if category = "neutral" then -1/20
    else 0
  else 0

/-- String-keyed object lookup (`obj[key]`), returning the first binding
of the key in insertion order (JS object keys are unique, so association
lists model them faithfully). -/
def lookupKey {β : Type} : List (String × β) → String → Option β
  | [], _ => none
  | p :: rest, k => if k = p.1 then some p.2 else lookupKey rest k

/-- `pruneTimestamps(arr, now)`: keep timestamps strictly newer than
`now - 60000`. -/
def pruneTimestamps (arr : List ℤ) (now : ℤ) : List ℤ :=
  arr.filter (fun t => now - 60000 < t)

/-- The bad-site category list used for doomscroll detection. -/
def badCategories : List String :=
  ["socialMedia", "entertainment", "games", "blocked"]

/-- `['socialMedia', ...].includes(category)` for an optional category
(`includes(null)` is false). -/
def isBadCategory (c : Option String) : Bool :=
  match c with
  | some s => decide (s ∈ badCategories)
  | none => false

/-- The `currentCategory` local of `computeFocusScore`:
`signals.currentCategory || 'neutral'`. -/
def currentCategoryOf (signals : Signals) : String :=
  signals.currentCategory.getD "neutral"

/-- The `lastActivity` local of `computeFocusScore`:
`Math.max(signals.lastMouseMove || 0, signals.lastKeyPress || 0)`. -/
def lastActivityOf (signals : Signals) : ℤ :=
  max signals.lastMouseMove signals.lastKeyPress

/-- The `idleMs` local of `computeFocusScore`:
`lastActivity > 0 ? now - lastActivity : 0`. -/
def idleMsOf (signals : Signals) (now : ℤ) : ℤ :=
  if 0 < lastActivityOf signals then now - lastActivityOf signals else 0

/-- The `switchRate` local: length of the pruned tab-switch list. -/
def switchRateOf (signals : Signals) (now : ℤ) : ℕ :=
  (pruneTimestamps signals.tabSwitches now).length

/-- The `tabPenalty` local: `clamp01(switchRate / threshold) * 35`. -/
def tabPenaltyOf (signals : Signals) (mode : String) (now : ℤ) : ℚ :=
  clamp01 ((switchRateOf signals now : ℚ) / (modeConfig mode).tabSwitchThreshold) * 35

/-- The `categoryMultiplier` local. -/
def categoryMultiplierOf (signals : Signals) (mode : String) : ℚ :=
  getCategoryPenalty (currentCategoryOf signals) mode

/-- The `idlePenalty` local (value computed inside its guard). -/
def idlePenaltyOf (signals : Signals) (mode : String) (now : ℤ) : ℚ :=
  clamp01 (((idleMsOf signals now - (modeConfig mode).idleThresholdMs : ℤ) : ℚ) / 60000) * 20

/-- The `typingBonus` local: `config.typingBonus * 15`. -/
def typingBonusOf (mode : String) : ℚ := (modeConfig mode).typingBonus * 15

/-- The `doomPenalty` local: `clamp01(scrollCount / 20) * 25`. -/
def doomPenaltyOf (signals : Signals) : ℚ :=
  clamp01 ((signals.scrollCount : ℚ) / 20) * 25

/-- The `badSiteTimeMs` local: total `totalMs` accumulated on bad-category
sites. -/
def badSiteTimeMsOf (signals : Signals) : ℤ :=
  (signals.siteTime.map (fun p =>
    if p.2.category ∈ badCategories then p.2.totalMs else 0)).sum

/-- The `prolongedPenalty` local: `clamp01(badSiteTimeMs / 300000) * 20`. -/
def prolongedPenaltyOf (signals : Signals) : ℚ :=
  clamp01 ((badSiteTimeMsOf signals : ℚ) / 300000) * 20

/-- The `faceMissingPenalty` local:
`clamp01((faceMissingMs - 10000) / 60000) * 25`. -/
def faceMissingPenaltyOf (signals : Signals) : ℚ :=
  clamp01 (((signals.faceMissingMs - 10000 : ℤ) : ℚ) / 60000) * 25

/-- The `lookingAwayPenalty` local:
`clamp01((lookingAwayMs - 5000) / 30000) * 15`. -/
def lookingAwayPenaltyOf (signals : Signals) : ℚ :=
  clamp01 (((signals.lookingAwayMs - 5000 : ℤ) : ℚ) / 30000) * 15

/-- The two flat strict-mode deductions of `computeFocusScore` step 7.
They are subtracted from the score but never pushed onto the itemized
`penalties` list. -/
def strictFlatAdjust (signals : Signals) (mode : String) (now : ℤ) : ℚ :=
  if mode = "strict" then
    (if currentCategoryOf signals ≠ "productive" then 5 else 0) +
    (if ¬signals.isActivelyTyping ∧ 10000 < idleMsOf signals now then 5 else 0)
  else 0

/-- The `debug` object returned by `computeFocusScore`. -/
structure FocusDebug where
  switchRate : ℕ
  currentCategory : String
  idleMs : ℤ
  badSiteTimeMs : ℤ
  deriving DecidableEq, Repr

/-- Return value of `computeFocusScore`. -/
structure FocusResult where
  score : ℤ
  penalties : List Item
  bonuses : List Item
  debug : FocusDebug
  deriving DecidableEq, Repr

/-- `computeFocusScore(signals, settings, mode)` from music_controller.js.
`now` stands for the internal `Date.now()` call.  Each `score -= v` inside
an `if` block is written as subtracting `if guard then v else 0`, and the
matching `penalties.push` as appending `if guard then [item] else []`, so
the sequential mutation becomes a pure expression.  `settings` is accepted
and ignored exactly as in the source. -/
def computeFocusScore (signals : Signals) (_settings : Settings)
    (mode : String) (now : ℤ) : FocusResult :=
  let config := modeConfig mode
  -- 1. tab switching penalty (always subtracted, itemized only when > 0)
  let tabP := tabPenaltyOf signals mode now
  -- 2. site category penalty / bonus
  let catM := categoryMultiplierOf signals mode
  -- 3. idle penalty
  let idleG := config.idleThresholdMs < idleMsOf signals now
  -- 5. doomscrolling penalty
  let doomG := isBadCategory (some (currentCategoryOf signals)) = true ∧ 5 < signals.scrollCount
  -- 6. prolonged bad site penalty
  let prolG := (30000 : ℤ) < badSiteTimeMsOf signals
  -- 8. vision-based adjustments
  let faceG := signals.visionEnabled = true ∧ signals.facePresent = false ∧
    10000 < signals.faceMissingMs
  let gazeG := signals.visionEnabled = true ∧ signals.lookingAway = true ∧
    5000 < signals.lookingAwayMs
  let visG := signals.visionEnabled = true ∧ signals.facePresent = true ∧
    signals.lookingAway = false ∧ (7/10 : ℚ) < signals.visionAttentionScore
  let raw := config.baseScore - tabP
    - (if catM < 0 then |catM| * 50 else 0)
    + (if 0 < catM then catM * 20 else 0)
    - (if idleG then idlePenaltyOf signals mode now else 0)
    + (if signals.isActivelyTyping then typingBonusOf mode else 0)
    - (if doomG then doomPenaltyOf signals else 0)
    - (if prolG then prolongedPenaltyOf signals else 0)
    - strictFlatAdjust signals mode now
    - (if faceG then faceMissingPenaltyOf signals else 0)
    - (if gazeG then lookingAwayPenaltyOf signals else 0)
    + (if visG then (5 : ℚ) else 0)
  { score := intClamp (round raw) 0 100
    penalties :=
      (if 0 < tabP then [⟨"tabSwitch", none, tabP⟩] else []) ++
      (if catM < 0 then
        [⟨"badSite", some (currentCategoryOf signals), |catM| * 50⟩] else []) ++
      (if idleG then [⟨"idle", none, idlePenaltyOf signals mode now⟩] else []) ++
      (if doomG then [⟨"doomscroll", none, doomPenaltyOf signals⟩] else []) ++
      (if prolG then [⟨"prolongedBadSite", none, prolongedPenaltyOf signals⟩] else []) ++
      (if faceG then [⟨"faceAway", none, faceMissingPenaltyOf signals⟩] else []) ++
      (if gazeG then [⟨"lookingAway", none, lookingAwayPenaltyOf signals⟩] else [])
    bonuses :=
      (if 0 < catM then
        [⟨"goodSite", some (currentCategoryOf signals), catM * 20⟩] else []) ++
      (if signals.isActivelyTyping then [⟨"typing", none, typingBonusOf mode⟩] else []) ++
      (if visG then [⟨"visuallyFocused", none, (5 : ℚ)⟩] else [])
    debug :=
      { switchRate := switchRateOf signals now
        currentCategory := currentCategoryOf signals
        idleMs := idleMsOf signals now
        badSiteTimeMs := badSiteTimeMsOf signals } }

/-- `updateEMA(currentEMA, newScore) = α * newScore + (1 - α) * currentEMA`
with `EMA_ALPHA = 0.3` (music_controller.js). -/
def updateEMA (currentEMA newScore : ℚ) : ℚ :=
  (3/10) * newScore + (1 - 3/10) * currentEMA

/-- One `{timestamp, score}` history entry pushed by the tick loop. -/
structure HistoryEntry where
  timestamp : ℤ
  score : ℤ
  deriving DecidableEq, Repr

/-- `computeTrendDelta(history, now)` (music_controller.js): newest minus
oldest score among entries strictly inside the last 30 s, 0 when fewer
than two qualify. -/
def computeTrendDelta (history : List HistoryEntry) (now : ℤ) : ℤ :=
  let recent := history.filter (fun h => now - 30000 < h.timestamp)
  match recent with
  | [] => 0
  | [_] => 0
  | h :: t => ((h :: t).getLast?.getD ⟨0, 0⟩).score - h.score

/-! ## Decision engine (decision_engine.js) -/

/-- One bandit arm: `{ value, n }`. -/
structure Arm where
  value : ℚ
  n : ℕ
  deriving DecidableEq, Repr

/-- The bandit policy: `{ arms: { name: {value, n}, ... } }`, with the
association list keeping `Object.entries` insertion order. -/
structure Policy where
  arms : List (String × Arm)
  deriving DecidableEq, Repr

/-- `DEFAULT_STATE.policy` from the storage module. -/
def defaultPolicy : Policy :=
  ⟨[("BOOST_ENERGY", ⟨1/2, 1⟩),
    ("SWITCH_PLAYLIST", ⟨1/2, 1⟩),
    ("PATTERN_BREAK", ⟨1/2, 1⟩),
    ("SMART_RECOMMEND", ⟨3/5, 1⟩),
    ("NUCLEAR", ⟨1/5, 1⟩)]⟩

/-- `Session` state: `{active, mode, phase, startedAt}`. -/
structure Session where
  active : Bool
  mode : String
  phase : String
  startedAt : Option ℤ
  deriving DecidableEq, Repr

/-- `Metrics` recomputed each tick. -/
structure Metrics where
  focusScore : ℤ
  focusTrend : ℚ
  trendDelta : ℤ
  penalties : List Item
  bonuses : List Item
  deriving DecidableEq, Repr

/-- The outstanding Intervention Record `{type, appliedAt, preScore}`. -/
structure InterventionRecord where
  type : String
  appliedAt : ℤ
  preScore : ℤ
  deriving DecidableEq, Repr

/-- The persisted state fields consumed by the control loop. -/
structure State where
  session : Session
  signals : Signals
  metrics : Metrics
  lastIntervention : Option InterventionRecord
  policy : Policy
  settings : Settings
  history : List HistoryEntry
  deriving DecidableEq, Repr

/-- `COOLDOWNS[mode]` (ms); `none` models the `undefined` lookup for an
unknown mode (a NaN comparison in JS, which is falsy). -/
def cooldownOf (mode : String) : Option ℤ :=
  if mode = "gentle" then some 60000
  else if mode = "normal" then some 30000
  else if mode = "strict" then some 10000
  else none

/-- `THRESHOLDS[mode]`; `none` models the `undefined` lookup. -/
def thresholdOf (mode : String) : Option ℤ :=
  if mode = "gentle" then some 45
  else if mode = "normal" then some 60
  else if mode = "strict" then some 75
  else none

/-- `TREND_THRESHOLDS[session.mode] || -10` (all table values are truthy). -/
def trendThresholdOf (mode : String) : ℤ :=
  if mode = "gentle" then -15
  else if mode = "normal" then -10
  else if mode = "strict" then -5
  else -10

/-- Return value of `shouldIntervene`. -/
structure InterventionCheck where
  should : Bool
  reason : String
  deriving DecidableEq, Repr

/-- `shouldIntervene(state, now)` from decision_engine.js. -/
def shouldIntervene (state : State) (now : ℤ) : InterventionCheck :=
  if ¬(state.session.active = true ∧ state.session.phase = "study") then
    ⟨false, "not_studying"⟩
  else
    let cooldownBlocked :=
      match state.lastIntervention, cooldownOf state.session.mode with
      | some li, some cd => decide (now - li.appliedAt < cd)
      | _, _ => false
    if cooldownBlocked then ⟨false, "cooldown"⟩
    else
      let lowFocus :=
        match thresholdOf state.session.mode with
        | some t => decide (state.metrics.focusScore < t)
        | none => false
      if lowFocus then ⟨true, "low_focus"⟩
      else if state.metrics.trendDelta < trendThresholdOf state.session.mode then
        ⟨true, "dropping_focus"⟩
      else if state.session.mode = "strict" ∧ state.signals.isDoomscrolling then
        ⟨true, "doomscrolling"⟩
      else ⟨false, "focused"⟩

/-- `totalN` of `selectArmUCB`: the sum of every arm's `n`, the excluded
ones included. -/
def totalNOf (arms : List (String × Arm)) : ℕ :=
  (arms.map (fun p => p.2.n)).sum

/-- The UCB1 score of one arm:
`arm.value + Math.sqrt((2 * Math.log(totalN + 1)) / arm.n)`. -/
noncomputable def ucbScore (totalN : ℕ) (arm : Arm) : ℝ :=
  (arm.value : ℝ) + Real.sqrt (2 * Real.log ((totalN : ℝ) + 1) / (arm.n : ℝ))

open Classical in
/-- The `for (const [name, arm] of arms)` loop of `selectArmUCB`, carrying
`best`/`bestScore` (`none` is the initial `null` / `-Infinity` pair, so
the first eligible arm always wins against it). -/
noncomputable def bestArm (totalN : ℕ) (excludeNuclear : Bool) :
    List (String × Arm) → Option (String × ℝ) → Option (String × ℝ)
  | [], best => best
  | (name, arm) :: rest, best =>
    if excludeNuclear = true ∧ name = "NUCLEAR" then
      bestArm totalN excludeNuclear rest best
    else
      match best with
      | none => bestArm totalN excludeNuclear rest (some (name, ucbScore totalN arm))
      | some (b, bs) =>
        if bs < ucbScore totalN arm then
          bestArm totalN excludeNuclear rest (some (name, ucbScore totalN arm))
        else
          bestArm totalN excludeNuclear rest (some (b, bs))

/-- `selectArmUCB(policy, excludeNuclear = true)`: run the loop, then
`return best || 'BOOST_ENERGY'`. -/
noncomputable def selectArmUCB (policy : Policy) (excludeNuclear : Bool := true) : String :=
  match bestArm (totalNOf policy.arms) excludeNuclear policy.arms none with
  | some (b, _) => b
  | none => "BOOST_ENERGY"

/-- `selectIntervention(state, isDoomscrolling)`; `now` stands for the two
`Date.now()` calls in the escalation check. -/
noncomputable def selectIntervention (state : State) (isDoomscrolling : Bool)
    (now : ℤ) : String :=
  let isEscalating :=
    match state.lastIntervention with
    | some li =>
      decide (now - li.appliedAt < 60000) &&
      decide (li.type ≠ "VIOLA_POPUP") && decide (li.type ≠ "NUCLEAR")
    | none => false
  if isDoomscrolling = true ∧ state.session.mode = "strict" ∧
      state.settings.nuclearEnabled = true then
    "NUCLEAR"
  else if isEscalating = true ∧ state.metrics.focusScore < 50 then
    "VIOLA_POPUP"
  else if state.metrics.focusScore < 30 ∧ isDoomscrolling = true then
    "WHITE_NOISE"
  else
    let autoMusicEnabled := state.settings.autoMusicSwitch ≠ some false
    let autoThreshold :=
      if state.settings.autoMusicThreshold = 0 then 50
      else state.settings.autoMusicThreshold
    let onBadSite := isDoomscrolling = true ∨
      isBadCategory state.signals.currentCategory = true
    if autoMusicEnabled ∧ (state.metrics.focusScore : ℚ) < autoThreshold ∧
        ¬onBadSite then
      "SMART_RECOMMEND"
    else
      selectArmUCB state.policy true

/-- The incremental-mean body of `updateBanditArm`:
`arm.n += 1; arm.value += (reward - arm.value) / arm.n` (the division uses
the already incremented `n`). -/
def updateArm (arm : Arm) (reward : ℚ) : Arm :=
  let n := arm.n + 1
  { value := arm.value + (reward - arm.value) / (n : ℚ), n := n }

/-- `updateBanditArm(policy, armName, reward)`: a no-op when the arm is
absent, otherwise replace the named arm by its incremental-mean update. -/
def updateBanditArm (policy : Policy) (armName : String) (reward : ℚ) : Policy :=
  match lookupKey policy.arms armName with
  | none => policy
  | some _ =>
    ⟨policy.arms.map (fun p =>
      if p.1 = armName then (p.1, updateArm p.2 reward) else p)⟩

/-- `deltaToReward(focusDelta) = Math.max(0, Math.min(1, (delta + 15) / 30))`. -/
def deltaToReward (focusDelta : ℚ) : ℚ :=
  max 0 (min 1 ((focusDelta + 15) / 30))

/-- The payload of a successful `evaluateIntervention` call (its JS return
object minus the `evaluated: true` flag, which the `Option` models). -/
structure EvalOutcome where
  delta : ℤ
  reward : ℚ
  policy : Policy
  interventionType : String
  deriving DecidableEq, Repr

/-- `evaluateIntervention(state, currentScore)`: `none` is the
`{evaluated: false}` return. -/
def evaluateIntervention (state : State) (currentScore : ℤ) : Option EvalOutcome :=
  match state.lastIntervention with
  | none => none
  | some li =>
    let delta := currentScore - li.preScore
    let reward := deltaToReward (delta : ℚ)
    some
      { delta := delta
        reward := reward
        policy := updateBanditArm state.policy li.type reward
        interventionType := li.type }

/-! ## Orchestration loop (service_worker.js)

`tick()` is embedded as a pure function of the loaded state, the current
time, and an environment record standing for the external collaborators it
consults: `isYTMusicAvailable()`, the `recentAlarm` flag derived from the
module-level alarm timestamps, and the success flag of
`applyIntervention`.  The calls that only touch external surfaces or
module-level variables and leave the persisted state unchanged
(`monitorTrackChange`, `updateDoomscrollDetection`, `showViolaPopup`, the
`chrome.runtime.sendMessage` broadcasts) are absorbed into that
environment. -/

/-- `EVAL_WINDOW_MS = 45_000`. -/
def EVAL_WINDOW_MS : ℤ := 45000

/-- `HISTORY_MAX_ENTRIES = 1000`. -/
def HISTORY_MAX_ENTRIES : ℕ := 1000

/-- External collaborators consulted during one tick. -/
structure Env where
  musicAvailable : Bool
  recentAlarm : Bool
  applySuccess : String → Bool

/-- Observable events of one tick: whether the body ran at all, whether the
Feedback Evaluator consumed the outstanding record, and which intervention
(if any) was selected and dispatched to the actuator. -/
structure TickTrace where
  ranBody : Bool
  evaluated : Bool
  dispatched : Option String
  deriving DecidableEq, Repr

/-- The site-time refresh at the top of `tick`: if the current site has a
running `lastStart` stamp, fold the elapsed time into `totalMs` and reset
`lastStart` to `now`. -/
def updateSiteTime (signals : Signals) (now : ℤ) : Signals :=
  match signals.currentSite with
  | none => signals
  | some host =>
    match lookupKey signals.siteTime host with
    | some data =>
      if data.lastStart ≠ 0 then
        { signals with siteTime := signals.siteTime.map (fun p =>
            if p.1 = host then
              (p.1, ⟨p.2.category, p.2.totalMs + (now - p.2.lastStart), now⟩)
            else p) }
      else signals
    | none => signals

/-- The measurement phase of `tick`: refresh site time, recompute the focus
score, push the history entry (capped at `HISTORY_MAX_ENTRIES`, oldest
evicted), and rebuild `state.metrics`. -/
def tickMeasure (state : State) (now : ℤ) : State :=
  let signals1 := updateSiteTime state.signals now
  let focusResult := computeFocusScore signals1 state.settings state.session.mode now
  let focusScore := focusResult.score
  let focusTrend := updateEMA state.metrics.focusTrend (focusScore : ℚ)
  let history1 := state.history ++ [⟨now, focusScore⟩]
  let history2 :=
    if HISTORY_MAX_ENTRIES < history1.length then
      history1.drop (history1.length - HISTORY_MAX_ENTRIES)
    else history1
  let trendDelta := computeTrendDelta history2 now
  { state with
    signals := signals1
    history := history2
    metrics :=
      { focusScore := focusScore
        focusTrend := focusTrend
        trendDelta := trendDelta
        penalties := focusResult.penalties
        bonuses := focusResult.bonuses } }

/-- The Feedback Evaluator step of `tick`: when the outstanding record is
due (`elapsed >= EVAL_WINDOW_MS`), evaluate it, install the updated policy
and clear the record.  Returns the new state and whether evaluation ran. -/
def tickEval (state : State) (now : ℤ) : State × Bool :=
  match state.lastIntervention with
  | some li =>
    if EVAL_WINDOW_MS ≤ now - li.appliedAt then
      match evaluateIntervention state state.metrics.focusScore with
      | some outcome =>
        ({ state with policy := outcome.policy, lastIntervention := none }, true)
      | none => (state, false)
    else (state, false)
  | none => (state, false)

/-- The intervention step of `tick`: gated on music availability and the
recent-alarm guard; on a positive `shouldIntervene`, select an intervention
(the doomscroll flag is the tracker flag or a bad current category),
dispatch it, and on actuator success store the new Intervention Record
with `preScore` equal to this tick's score. -/
noncomputable def tickIntervene (state : State) (now : ℤ) (env : Env) :
    State × Option String :=
  if env.musicAvailable = true ∧ env.recentAlarm = false then
    if (shouldIntervene state now).should then
      let isDoomscrolling :=
        state.signals.isDoomscrolling || isBadCategory state.signals.currentCategory
      let interventionType := selectIntervention state isDoomscrolling now
      if env.applySuccess interventionType then
        let record : InterventionRecord := ⟨interventionType, now, state.metrics.focusScore⟩
        ({ state with lastIntervention := some record }, some interventionType)
      else (state, some interventionType)
    else (state, none)
  else (state, none)

/-- `tick()` from service_worker.js: early-return on an inactive session,
then measurement, feedback evaluation and the intervention decision, in
that order and in one pass over the same state object. -/
noncomputable def tick (state : State) (now : ℤ) (env : Env) : State × TickTrace :=
  if state.session.active = false then (state, ⟨false, false, none⟩)
  else
    let st1 := tickMeasure state now
    let evalStep := tickEval st1 now
    let intStep := tickIntervene evalStep.1 now env
    (intStep.1, ⟨true, evalStep.2, intStep.2⟩)

/-- The module-level runtime context around the persisted state: the
`focus-tick` chrome alarm and the module variables reset by
`stopSession`. -/
structure World where
  state : State
  tickAlarmActive : Bool
  offTaskStart : Option ℤ
  currentTabUrl : Option String

/-- `stopSession()`: set `session.active = false` (nothing else in the
persisted state is touched), clear the `focus-tick` alarm, and reset the
module variables `offTaskStart` and `currentTabUrl`. -/
def stopSession (w : World) : World :=
  { w with
    state := { w.state with session := { w.state.session with active := false } }
    tickAlarmActive := false
    offTaskStart := none
    currentTabUrl := none }

/-! ## Helper lemmas -/

theorem clamp01_nonneg (x : ℚ) : 0 ≤ clamp01 x := le_max_left 0 _

theorem clamp01_le_one (x : ℚ) : clamp01 x ≤ 1 :=
  max_le (by norm_num) (min_le_left _ _)

theorem intClamp_nonneg (z : ℤ) : 0 ≤ intClamp z 0 100 := le_max_left 0 _

theorem intClamp_le_hundred (z : ℤ) : intClamp z 0 100 ≤ 100 :=
  max_le (by norm_num) (min_le_left _ _)

theorem sumItems_append (l1 l2 : List Item) :
    sumItems (l1 ++ l2) = sumItems l1 + sumItems l2 := by
  simp [sumItems]

theorem sumItems_ite (c : Prop) [Decidable c] (i : Item) :
    sumItems (if c then [i] else []) = if c then i.value else 0 := by
  split <;> simp [sumItems]

theorem ite_pos_self (v : ℚ) (h : 0 ≤ v) : (if 0 < v then v else 0) = v := by
  rcases lt_or_eq_of_le h with hv | hv
  · rw [if_pos hv]
  · rw [if_neg (by rw [← hv]; exact lt_irrefl 0), ← hv]

theorem rat_round_mono {a b : ℚ} (h : a ≤ b) : round a ≤ round b := by
  rw [round_eq, round_eq]
  exact Int.floor_le_floor (by linarith)

theorem round_hundred : round (100 : ℚ) = 100 := by
  have h : ((100 : ℤ) : ℚ) = 100 := by norm_num
  rw [← h, round_intCast]

/-- Rounding commutes with clamping to the integer interval `[0, 100]`. -/
theorem round_qclamp (x : ℚ) : round (qclamp x 0 100) = intClamp (round x) 0 100 := by
  unfold qclamp intClamp
  rcases le_total x 0 with h | h
  · have h1 : min 100 x = x := min_eq_right (by linarith)
    have h2 : round x ≤ 0 := by
      have := rat_round_mono h
      simpa using this
    rw [h1, max_eq_left h, min_eq_right (by linarith : round x ≤ (100 : ℤ)),
      max_eq_left h2]
    simp
  · rcases le_total 100 x with h2 | h2
    · have h1 : min 100 x = 100 := min_eq_left h2
      have h3 : (100 : ℤ) ≤ round x := by
        have := rat_round_mono h2
        rwa [round_hundred] at this
      rw [h1, max_eq_right (by norm_num : (0:ℚ) ≤ 100), round_hundred,
        min_eq_left h3, max_eq_right (by norm_num : (0:ℤ) ≤ 100)]
    · have h1 : min 100 x = x := min_eq_right h2
      have h3 : 0 ≤ round x := by
        have := rat_round_mono h
        simpa using this
      have h4 : round x ≤ 100 := by
        have := rat_round_mono h2
        rwa [round_hundred] at this
      rw [h1, max_eq_right h, min_eq_right h4, max_eq_right h3]

theorem modeConfig_baseScore (mode : String) : (modeConfig mode).baseScore = 100 := by
  unfold modeConfig
  split_ifs <;> rfl

theorem tabPenaltyOf_nonneg (signals : Signals) (mode : String) (now : ℤ) :
    0 ≤ tabPenaltyOf signals mode now :=
  mul_nonneg (clamp01_nonneg _) (by norm_num)

theorem lookupKey_nil {β : Type} (k : String) : lookupKey ([] : List (String × β)) k = none :=
  rfl

theorem lookupKey_cons {β : Type} (p : String × β) (rest : List (String × β)) (k : String) :
    lookupKey (p :: rest) k = if k = p.1 then some p.2 else lookupKey rest k :=
  rfl

/-- `lookupKey` through the key-preserving update map used by
`updateBanditArm`. -/
theorem lookup_map_update (arms : List (String × Arm)) (k nm : String) (r : ℚ) :
    lookupKey (arms.map (fun p => if p.1 = nm then (p.1, updateArm p.2 r) else p)) k
      = (lookupKey arms k).map (fun a => if k = nm then updateArm a r else a) := by
  induction arms with
  | nil => simp [lookupKey_nil]
  | cons p t ih =>
    by_cases hp : p.1 = nm
    · by_cases hk : k = p.1
      · simp [List.map_cons, lookupKey_cons, hp, hk, hk.trans hp]
      · have hknm : ¬k = nm := fun h => hk (h.trans hp.symm)
        simp [List.map_cons, lookupKey_cons, hp, hk, hknm, ih]
    · by_cases hk : k = p.1
      · have hknm : ¬k = nm := fun h => hp (hk.symm.trans h)
        simp [List.map_cons, lookupKey_cons, hp, hk, hknm]
      · simp [List.map_cons, lookupKey_cons, hp, hk, ih]

/-! ## Claims -/

/-- C1 (amended): for every signals object, settings object, mode and
clock value, `computeFocusScore` returns an integer score in `[0, 100]`
together with the itemized penalty and bonus lists, and the score equals
`round(clamp(100 + Σbonuses − Σpenalties − strictFlat, 0, 100))`, where
`strictFlat` is the pair of flat −5 strict-mode deductions that the code
applies to the score without itemizing them (it is 0 in every other
mode). -/
theorem computeFocusScore_bounds_itemized (signals : Signals) (settings : Settings)
    (mode : String) (now : ℤ) :
    0 ≤ (computeFocusScore signals settings mode now).score ∧
    (computeFocusScore signals settings mode now).score ≤ 100 ∧
    (computeFocusScore signals settings mode now).score =
      round (qclamp (100 + sumItems (computeFocusScore signals settings mode now).bonuses
        - sumItems (computeFocusScore signals settings mode now).penalties
        - strictFlatAdjust signals mode now) 0 100) := by
  refine ⟨?_, ?_, ?_⟩
  · simp only [computeFocusScore]
    exact intClamp_nonneg _
  · simp only [computeFocusScore]
    exact intClamp_le_hundred _
  · rw [round_qclamp]
    simp only [computeFocusScore, sumItems_append, sumItems_ite, modeConfig_baseScore]
    refine congrArg (fun z => intClamp z 0 100) (congrArg round ?_)
    rw [ite_pos_self _ (tabPenaltyOf_nonneg signals mode now)]
    ring

/-- C2: whenever an Intervention Record is outstanding,
`evaluateIntervention` computes `delta = currentScore - preScore` and
`reward = clamp((delta + 15) / 30, 0, 1)` and updates the recorded arm by
the incremental mean `n += 1; value += (reward - value) / n`; the reward
endpoints are `deltaToReward (-15) = 0`, `deltaToReward 0 = 1/2`,
`deltaToReward 15 = 1` with all rewards clamped into `[0, 1]`, and an arm
`{value: 1/2, n: 1}` receiving reward 1 becomes `{value: 3/4, n: 2}`. -/
theorem evaluateIntervention_reward_update :
    (∀ (state : State) (currentScore : ℤ) (li : InterventionRecord),
      state.lastIntervention = some li →
      evaluateIntervention state currentScore =
        some ⟨currentScore - li.preScore,
          deltaToReward ((currentScore - li.preScore : ℤ) : ℚ),
          updateBanditArm state.policy li.type
            (deltaToReward ((currentScore - li.preScore : ℤ) : ℚ)),
          li.type⟩) ∧
    deltaToReward (-15) = 0 ∧ deltaToReward 0 = 1/2 ∧ deltaToReward 15 = 1 ∧
    (∀ d : ℚ, d ≤ -15 → deltaToReward d = 0) ∧
    (∀ d : ℚ, 15 ≤ d → deltaToReward d = 1) ∧
    (∀ d : ℚ, 0 ≤ deltaToReward d ∧ deltaToReward d ≤ 1) ∧
    (∀ (policy : Policy) (name : String) (arm : Arm) (r : ℚ),
      lookupKey policy.arms name = some arm →
      lookupKey (updateBanditArm policy name r).arms name =
        some ⟨arm.value + (r - arm.value) / ((arm.n : ℚ) + 1), arm.n + 1⟩) ∧
    updateBanditArm ⟨[("A", ⟨1/2, 1⟩), ("B", ⟨1/2, 1⟩)]⟩ "A" 1 =
      ⟨[("A", ⟨3/4, 2⟩), ("B", ⟨1/2, 1⟩)]⟩ := by
  refine ⟨?_, ?_, ?_, ?_, ?_, ?_, ?_, ?_, ?_⟩
  · intro state currentScore li hli
    simp [evaluateIntervention, hli]
  · norm_num [deltaToReward]
  · norm_num [deltaToReward]
  · norm_num [deltaToReward]
  · intro d hd
    have h1 : (d + 15) / 30 ≤ 0 := by linarith
    simp [deltaToReward, max_eq_left, min_eq_right (by linarith : (d + 15) / 30 ≤ 1),
      max_eq_left h1]
  · intro d hd
    have h1 : (1 : ℚ) ≤ (d + 15) / 30 := by linarith
    rw [deltaToReward, min_eq_left h1, max_eq_right (by norm_num : (0:ℚ) ≤ 1)]
  · intro d
    exact ⟨le_max_left _ _, max_le (by norm_num) (min_le_left _ _)⟩
  · intro policy name arm r hlook
    rw [updateBanditArm, hlook]
    simp only [lookup_map_update, hlook, Option.map_some, if_pos rfl]
    have hcast : ((arm.n + 1 : ℕ) : ℚ) = (arm.n : ℚ) + 1 := by push_cast; ring
    simp [updateArm, hcast]
  · simp [updateBanditArm, updateArm, lookupKey, String.reduceEq]
    norm_num

/-- C3: with an active study-phase session and a recorded previous
intervention, `shouldIntervene` returns `should = false` strictly before
the mode cooldown has elapsed, and — when the focus score is below the
mode threshold — returns `should = true` exactly at and after that
boundary; the cooldowns are gentle 60 s, normal 30 s, strict 10 s (inside
the stated 45–60 s / 30 s / 10–15 s ranges). -/
theorem shouldIntervene_cooldown_gate (state : State) (now cd : ℤ)
    (li : InterventionRecord)
    (hactive : state.session.active = true)
    (hphase : state.session.phase = "study")
    (hli : state.lastIntervention = some li)
    (hcd : cooldownOf state.session.mode = some cd) :
    (now - li.appliedAt < cd → (shouldIntervene state now).should = false) ∧
    (∀ th : ℤ, thresholdOf state.session.mode = some th →
      state.metrics.focusScore < th → cd ≤ now - li.appliedAt →
      (shouldIntervene state now).should = true) ∧
    cooldownOf "gentle" = some 60000 ∧ cooldownOf "normal" = some 30000 ∧
    cooldownOf "strict" = some 10000 := by
  refine ⟨?_, ?_, rfl, rfl, rfl⟩
  · intro hlt
    rw [shouldIntervene, if_neg (by simp [hactive, hphase])]
    simp only [hli, hcd]
    rw [if_pos (by simpa using hlt)]
  · intro th hth hscore hge
    rw [shouldIntervene, if_neg (by simp [hactive, hphase])]
    simp only [hli, hcd]
    rw [if_neg (by simpa using not_lt.mpr hge)]
    simp only [hth]
    rw [if_pos (by simpa using hscore)]

/-- C5: in strict mode with the nuclear feature enabled,
`selectIntervention` with the doomscrolling flag set returns the NUCLEAR
arm regardless of the rest of the state (in particular regardless of the
current focus score), bypassing the bandit and every other rule. -/
theorem selectIntervention_nuclear (state : State) (now : ℤ)
    (hmode : state.session.mode = "strict")
    (hnuc : state.settings.nuclearEnabled = true) :
    selectIntervention state true now = "NUCLEAR" := by
  rw [selectIntervention]
  simp [hmode, hnuc]

/-! ## Bandit invariants (C8) -/

/-- The arm invariant from the spec data model: `n ≥ 1` and
`value ∈ [0, 1]`. -/
def armOK (arm : Arm) : Prop := 1 ≤ arm.n ∧ 0 ≤ arm.value ∧ arm.value ≤ 1

/-- Every arm of the policy satisfies `armOK`. -/
def policyOK (policy : Policy) : Prop := ∀ p ∈ policy.arms, armOK p.2

/-- A sequence of `updateBanditArm` calls, one `(armName, reward)` pair at
a time. -/
def applyUpdates (policy : Policy) (updates : List (String × ℚ)) : Policy :=
  updates.foldl (fun pol u => updateBanditArm pol u.1 u.2) policy

theorem updateArm_armOK (arm : Arm) (r : ℚ) (ha : armOK arm) (h0 : 0 ≤ r)
    (h1 : r ≤ 1) : armOK (updateArm arm r) := by
  obtain ⟨hn, hv0, hv1⟩ := ha
  have hnn : (0:ℚ) ≤ (arm.n : ℚ) := by positivity
  have hd : (0:ℚ) < (arm.n : ℚ) + 1 := by positivity
  have hcast : ((arm.n + 1 : ℕ) : ℚ) = (arm.n : ℚ) + 1 := by push_cast; ring
  have hval : (updateArm arm r).value =
      (arm.value * (arm.n : ℚ) + r) / ((arm.n : ℚ) + 1) := by
    simp only [updateArm, hcast]
    field_simp
    ring
  refine ⟨by simp [updateArm], ?_, ?_⟩
  · rw [hval]
    apply div_nonneg _ (le_of_lt hd)
    nlinarith
  · rw [hval, div_le_one hd]
    nlinarith

theorem updateBanditArm_policyOK (policy : Policy) (nm : String) (r : ℚ)
    (hp : policyOK policy) (h0 : 0 ≤ r) (h1 : r ≤ 1) :
    policyOK (updateBanditArm policy nm r) := by
  cases hlk : lookupKey policy.arms nm with
  | none =>
    simp only [updateBanditArm, hlk]
    exact hp
  | some a =>
    simp only [updateBanditArm, hlk]
    intro p hmem
    simp only [List.mem_map] at hmem
    obtain ⟨q, hq, rfl⟩ := hmem
    by_cases h : q.1 = nm
    · simp only [if_pos h]
      exact updateArm_armOK _ _ (hp q hq) h0 h1
    · simp only [if_neg h]
      exact hp q hq

theorem updateBanditArm_lookup_mono (policy : Policy) (nm : String) (r : ℚ)
    (name : String) (arm : Arm) (h : lookupKey policy.arms name = some arm) :
    ∃ arm', lookupKey (updateBanditArm policy nm r).arms name = some arm' ∧
      arm.n ≤ arm'.n := by
  cases hlk : lookupKey policy.arms nm with
  | none => exact ⟨arm, by simp only [updateBanditArm, hlk]; exact h, le_refl _⟩
  | some a =>
    simp only [updateBanditArm, hlk]
    rw [lookup_map_update, h]
    by_cases hn : name = nm
    · exact ⟨updateArm arm r, by simp [hn], by simp [updateArm]⟩
    · exact ⟨arm, by simp [hn], le_refl _⟩

/-- C8: starting from any policy whose arms all have `n ≥ 1` and
`value ∈ [0, 1]` (the seeded priors do), any sequence of `updateBanditArm`
calls with rewards in `[0, 1]` preserves the invariant, and no arm's trial
count ever decreases. -/
theorem bandit_policy_invariant (policy : Policy) (updates : List (String × ℚ))
    (hpol : policyOK policy)
    (hrew : ∀ u ∈ updates, 0 ≤ u.2 ∧ u.2 ≤ 1) :
    policyOK (applyUpdates policy updates) ∧
    (∀ (name : String) (arm : Arm), lookupKey policy.arms name = some arm →
      ∃ arm', lookupKey (applyUpdates policy updates).arms name = some arm' ∧
        arm.n ≤ arm'.n) := by
  induction updates generalizing policy with
  | nil => exact ⟨hpol, fun name arm h => ⟨arm, h, le_refl _⟩⟩
  | cons u t ih =>
    have hu := hrew u (List.mem_cons_self _ _)
    have hstep : policyOK (updateBanditArm policy u.1 u.2) :=
      updateBanditArm_policyOK _ _ _ hpol hu.1 hu.2
    have ht : ∀ v ∈ t, 0 ≤ v.2 ∧ v.2 ≤ 1 :=
      fun v hv => hrew v (List.mem_cons_of_mem _ hv)
    have happ : applyUpdates policy (u :: t) =
        applyUpdates (updateBanditArm policy u.1 u.2) t := rfl
    obtain ⟨h1, h2⟩ := ih (updateBanditArm policy u.1 u.2) hstep ht
    refine ⟨by rw [happ]; exact h1, ?_⟩
    intro name arm h
    obtain ⟨arm1, ha1, hn1⟩ := updateBanditArm_lookup_mono policy u.1 u.2 name arm h
    obtain ⟨arm2, ha2, hn2⟩ := h2 name arm1 ha1
    exact ⟨arm2, by rw [happ]; exact ha2, le_trans hn1 hn2⟩

/-! ## UCB selection (C4, C9) -/

theorem bestArm_all_nuclear (totalN : ℕ) (l : List (String × Arm))
    (h : ∀ p ∈ l, p.1 = "NUCLEAR") :
    bestArm totalN true l none = none := by
  induction l with
  | nil => rfl
  | cons p t ih =>
    obtain ⟨name, arm⟩ := p
    have hp : name = "NUCLEAR" := h (name, arm) (List.mem_cons_self _ _)
    simp only [bestArm]
    rw [if_pos ⟨trivial, hp⟩]
    exact ih (fun q hq => h q (List.mem_cons_of_mem _ hq))

/-- C9: when no arm is eligible — the arms map is empty or every present
arm is the excluded NUCLEAR arm — `selectArmUCB` still returns the fixed
default action `BOOST_ENERGY`. -/
theorem selectArmUCB_default_fallback (policy : Policy)
    (h : ∀ p ∈ policy.arms, p.1 = "NUCLEAR") :
    selectArmUCB policy true = "BOOST_ENERGY" := by
  rw [selectArmUCB, bestArm_all_nuclear _ _ h]

theorem bestArm_some (totalN : ℕ) (l : List (String × Arm)) :
    ∀ (b : String) (bs : ℝ), ∃ r rs,
      bestArm totalN true l (some (b, bs)) = some (r, rs) ∧ bs ≤ rs := by
  induction l with
  | nil => exact fun b bs => ⟨b, bs, rfl, le_refl _⟩
  | cons p t ih =>
    intro b bs
    obtain ⟨name, arm⟩ := p
    by_cases hn : name = "NUCLEAR"
    · simp only [bestArm]
      rw [if_pos ⟨trivial, hn⟩]
      exact ih b bs
    · simp only [bestArm]
      rw [if_neg (fun hh => hn hh.2)]
      by_cases hlt : bs < ucbScore totalN arm
      · rw [if_pos hlt]
        obtain ⟨r, rs, heq, hge⟩ := ih name (ucbScore totalN arm)
        exact ⟨r, rs, heq, le_trans (le_of_lt hlt) hge⟩
      · rw [if_neg hlt]
        exact ih b bs

theorem bestArm_mem (totalN : ℕ) (l : List (String × Arm)) :
    ∀ (best : Option (String × ℝ)) (r : String) (rs : ℝ),
      bestArm totalN true l best = some (r, rs) →
      (∃ arm, (r, arm) ∈ l ∧ r ≠ "NUCLEAR" ∧ rs = ucbScore totalN arm) ∨
        best = some (r, rs) := by
  induction l with
  | nil => exact fun best r rs h => Or.inr h
  | cons p t ih =>
    intro best r rs h
    obtain ⟨name, arm⟩ := p
    by_cases hn : name = "NUCLEAR"
    · rw [show bestArm totalN true ((name, arm) :: t) best =
          bestArm totalN true t best from by
        simp only [bestArm]; rw [if_pos ⟨trivial, hn⟩]] at h
      rcases ih best r rs h with ⟨arm', hmem, hr, hrs⟩ | hbest
      · exact Or.inl ⟨arm', List.mem_cons_of_mem _ hmem, hr, hrs⟩
      · exact Or.inr hbest
    · have hcond : ¬(True ∧ name = "NUCLEAR") := fun hh => hn hh.2
      cases best with
      | none =>
        rw [show bestArm totalN true ((name, arm) :: t) none =
            bestArm totalN true t (some (name, ucbScore totalN arm)) from by
          simp only [bestArm]; rw [if_neg hcond]] at h
        rcases ih _ r rs h with ⟨arm', hmem, hr, hrs⟩ | hbest
        · exact Or.inl ⟨arm', List.mem_cons_of_mem _ hmem, hr, hrs⟩
        · have hpair := Option.some.inj hbest
          have h1 : name = r := congrArg Prod.fst hpair
          have h2 : ucbScore totalN arm = rs := congrArg Prod.snd hpair
          exact Or.inl ⟨arm, h1 ▸ List.mem_cons_self _ _, h1 ▸ hn, h2.symm⟩
      | some q =>
        obtain ⟨b, bs⟩ := q
        by_cases hlt : bs < ucbScore totalN arm
        · rw [show bestArm totalN true ((name, arm) :: t) (some (b, bs)) =
              bestArm totalN true t (some (name, ucbScore totalN arm)) from by
            simp only [bestArm]; rw [if_neg hcond, if_pos hlt]] at h
          rcases ih _ r rs h with ⟨arm', hmem, hr, hrs⟩ | hbest
          · exact Or.inl ⟨arm', List.mem_cons_of_mem _ hmem, hr, hrs⟩
          · have hpair := Option.some.inj hbest
            have h1 : name = r := congrArg Prod.fst hpair
            have h2 : ucbScore totalN arm = rs := congrArg Prod.snd hpair
            exact Or.inl ⟨arm, h1 ▸ List.mem_cons_self _ _, h1 ▸ hn, h2.symm⟩
        · rw [show bestArm totalN true ((name, arm) :: t) (some (b, bs)) =
              bestArm totalN true t (some (b, bs)) from by
            simp only [bestArm]; rw [if_neg hcond, if_neg hlt]] at h
          rcases ih _ r rs h with ⟨arm', hmem, hr, hrs⟩ | hbest
          · exact Or.inl ⟨arm', List.mem_cons_of_mem _ hmem, hr, hrs⟩
          · exact Or.inr hbest

theorem bestArm_keep (totalN : ℕ) (l : List (String × Arm)) (b : String) (bs : ℝ)
    (h : ∀ p ∈ l, p.1 ≠ "NUCLEAR" → ucbScore totalN p.2 ≤ bs) :
    bestArm totalN true l (some (b, bs)) = some (b, bs) := by
  induction l with
  | nil => rfl
  | cons p t ih =>
    obtain ⟨name, arm⟩ := p
    by_cases hn : name = "NUCLEAR"
    · simp only [bestArm]
      rw [if_pos ⟨trivial, hn⟩]
      exact ih (fun q hq hq2 => h q (List.mem_cons_of_mem _ hq) hq2)
    · simp only [bestArm]
      rw [if_neg (fun hh => hn hh.2),
        if_neg (not_lt.mpr (h (name, arm) (List.mem_cons_self _ _) hn))]
      exact ih (fun q hq hq2 => h q (List.mem_cons_of_mem _ hq) hq2)

theorem bestArm_ge (totalN : ℕ) (l : List (String × Arm)) :
    ∀ (best : Option (String × ℝ)) (c : String) (armc : Arm),
      (c, armc) ∈ l → c ≠ "NUCLEAR" →
      ∃ r rs, bestArm totalN true l best = some (r, rs) ∧
        ucbScore totalN armc ≤ rs := by
  induction l with
  | nil => intro _ _ _ h; simp at h
  | cons p t ih =>
    intro best c armc hmem hc
    obtain ⟨name, arm⟩ := p
    rcases List.mem_cons.mp hmem with heq | htail
    · have h1 : c = name := congrArg Prod.fst heq
      have h2 : armc = arm := congrArg Prod.snd heq
      subst h1; subst h2
      have hcond : ¬(True ∧ c = "NUCLEAR") := fun hh => hc hh.2
      cases best with
      | none =>
        rw [show bestArm totalN true ((c, armc) :: t) none =
            bestArm totalN true t (some (c, ucbScore totalN armc)) from by
          simp only [bestArm]; rw [if_neg hcond]]
        exact bestArm_some totalN t c (ucbScore totalN armc)
      | some q =>
        obtain ⟨b, bs⟩ := q
        by_cases hlt : bs < ucbScore totalN armc
        · rw [show bestArm totalN true ((c, armc) :: t) (some (b, bs)) =
              bestArm totalN true t (some (c, ucbScore totalN armc)) from by
            simp only [bestArm]; rw [if_neg hcond, if_pos hlt]]
          exact bestArm_some totalN t c (ucbScore totalN armc)
        · rw [show bestArm totalN true ((c, armc) :: t) (some (b, bs)) =
              bestArm totalN true t (some (b, bs)) from by
            simp only [bestArm]; rw [if_neg hcond, if_neg hlt]]
          obtain ⟨r, rs, heq2, hge⟩ := bestArm_some totalN t b bs
          exact ⟨r, rs, heq2, le_trans (not_lt.mp hlt) hge⟩
    · by_cases hn : name = "NUCLEAR"
      · rw [show bestArm totalN true ((name, arm) :: t) best =
            bestArm totalN true t best from by
          simp only [bestArm]; rw [if_pos ⟨trivial, hn⟩]]
        exact ih best c armc htail hc
      · have hcond : ¬(True ∧ name = "NUCLEAR") := fun hh => hn hh.2
        cases best with
        | none =>
          rw [show bestArm totalN true ((name, arm) :: t) none =
              bestArm totalN true t (some (name, ucbScore totalN arm)) from by
            simp only [bestArm]; rw [if_neg hcond]]
          exact ih _ c armc htail hc
        | some q =>
          obtain ⟨b, bs⟩ := q
          by_cases hlt : bs < ucbScore totalN arm
          · rw [show bestArm totalN true ((name, arm) :: t) (some (b, bs)) =
                bestArm totalN true t (some (name, ucbScore totalN arm)) from by
              simp only [bestArm]; rw [if_neg hcond, if_pos hlt]]
            exact ih _ c armc htail hc
          · rw [show bestArm totalN true ((name, arm) :: t) (some (b, bs)) =
                bestArm totalN true t (some (b, bs)) from by
              simp only [bestArm]; rw [if_neg hcond, if_neg hlt]]
            exact ih _ c armc htail hc

theorem ucbScore_lt_of_lt (v : ℚ) (n1 n2 totalN : ℕ) (h1 : 1 ≤ n1) (h12 : n1 < n2)
    (htot : 1 ≤ totalN) :
    ucbScore totalN ⟨v, n2⟩ < ucbScore totalN ⟨v, n1⟩ := by
  unfold ucbScore
  apply add_lt_add_left
  have hlog : 0 < Real.log ((totalN : ℝ) + 1) := by
    apply Real.log_pos
    have h : (1 : ℝ) ≤ (totalN : ℝ) := by exact_mod_cast htot
    linarith
  have hn1 : (0:ℝ) < ((n1 : ℕ) : ℝ) := by exact_mod_cast h1
  have hn12 : ((n1 : ℕ) : ℝ) < ((n2 : ℕ) : ℝ) := by exact_mod_cast h12
  apply Real.sqrt_lt_sqrt
  · apply div_nonneg (by positivity) (by positivity)
  · exact div_lt_div_of_pos_left (by positivity) hn1 hn12

/-- C4: `selectArmUCB` never returns the NUCLEAR arm when exclusion is on;
it returns an arm whose UCB1 score `value + sqrt(2·ln(totalN+1)/n)` (with
`totalN` the sum of all arms' `n`) is at least that of every eligible arm;
the first entry wins whenever no later eligible entry strictly beats it
(the deterministic first-encountered tie-break); and of two arms with
equal value but different `n` the smaller-`n` arm is selected, in either
listing order. -/
theorem selectArmUCB_spec :
    (∀ policy : Policy, selectArmUCB policy true ≠ "NUCLEAR") ∧
    (∀ (policy : Policy) (c : String) (armc : Arm),
      (c, armc) ∈ policy.arms → c ≠ "NUCLEAR" →
      ∃ armr, (selectArmUCB policy true, armr) ∈ policy.arms ∧
        ucbScore (totalNOf policy.arms) armc ≤ ucbScore (totalNOf policy.arms) armr) ∧
    (∀ (policy : Policy) (a : String) (arm1 : Arm) (rest : List (String × Arm)),
      policy.arms = (a, arm1) :: rest → a ≠ "NUCLEAR" →
      (∀ p ∈ rest, p.1 ≠ "NUCLEAR" →
        ucbScore (totalNOf policy.arms) p.2 ≤ ucbScore (totalNOf policy.arms) arm1) →
      selectArmUCB policy true = a) ∧
    (∀ (a b : String) (v : ℚ) (n1 n2 : ℕ), a ≠ "NUCLEAR" → b ≠ "NUCLEAR" →
      1 ≤ n1 → n1 < n2 →
      selectArmUCB ⟨[(a, ⟨v, n1⟩), (b, ⟨v, n2⟩)]⟩ true = a ∧
      selectArmUCB ⟨[(b, ⟨v, n2⟩), (a, ⟨v, n1⟩)]⟩ true = a) := by
  have hnotnuc : ∀ policy : Policy, selectArmUCB policy true ≠ "NUCLEAR" := by
    intro policy
    rw [selectArmUCB]
    cases hb : bestArm (totalNOf policy.arms) true policy.arms none with
    | none => simp
    | some q =>
      obtain ⟨r, rs⟩ := q
      rcases bestArm_mem _ _ none r rs hb with ⟨arm', _, hr, _⟩ | hbest
      · simpa using hr
      · simp at hbest
  refine ⟨hnotnuc, ?_, ?_, ?_⟩
  · intro policy c armc hmem hc
    obtain ⟨r, rs, heq, hge⟩ := bestArm_ge (totalNOf policy.arms) policy.arms none c armc hmem hc
    rcases bestArm_mem _ _ none r rs heq with ⟨armr, hmemr, _, hrs⟩ | hbest
    · refine ⟨armr, ?_, ?_⟩
      · rw [selectArmUCB, heq]
        exact hmemr
      · exact hrs ▸ hge
    · simp at hbest
  · intro policy a arm1 rest harms ha hmax
    rw [harms] at hmax
    rw [selectArmUCB, harms,
      show bestArm (totalNOf ((a, arm1) :: rest)) true ((a, arm1) :: rest) none =
        bestArm (totalNOf ((a, arm1) :: rest)) true rest
          (some (a, ucbScore (totalNOf ((a, arm1) :: rest)) arm1)) from by
        simp only [bestArm]; rw [if_neg (fun hh => ha hh.2)],
      bestArm_keep _ _ _ _ hmax]
  · intro a b v n1 n2 ha hb h1 h12
    have htot1 : 1 ≤ totalNOf [(a, (⟨v, n1⟩ : Arm)), (b, ⟨v, n2⟩)] := by
      simp [totalNOf]
      omega
    have htot2 : 1 ≤ totalNOf [(b, (⟨v, n2⟩ : Arm)), (a, ⟨v, n1⟩)] := by
      simp [totalNOf]
      omega
    constructor
    · have hlt := ucbScore_lt_of_lt v n1 n2 _ h1 h12 htot1
      rw [selectArmUCB]
      rw [show bestArm (totalNOf [(a, (⟨v, n1⟩ : Arm)), (b, ⟨v, n2⟩)]) true
            [(a, (⟨v, n1⟩ : Arm)), (b, ⟨v, n2⟩)] none =
          some (a, ucbScore (totalNOf [(a, (⟨v, n1⟩ : Arm)), (b, ⟨v, n2⟩)]) ⟨v, n1⟩) from by
        simp only [bestArm]
        rw [if_neg (fun hh => ha hh.2), if_neg (fun hh => hb hh.2),
          if_neg (not_lt.mpr (le_of_lt hlt))]]
    · have hlt := ucbScore_lt_of_lt v n1 n2 _ h1 h12 htot2
      rw [selectArmUCB]
      rw [show bestArm (totalNOf [(b, (⟨v, n2⟩ : Arm)), (a, ⟨v, n1⟩)]) true
            [(b, (⟨v, n2⟩ : Arm)), (a, ⟨v, n1⟩)] none =
          some (a, ucbScore (totalNOf [(b, (⟨v, n2⟩ : Arm)), (a, ⟨v, n1⟩)]) ⟨v, n1⟩) from by
        simp only [bestArm]
        rw [if_neg (fun hh => hb hh.2), if_neg (fun hh => ha hh.2), if_pos hlt]]

/-! ## Tick structure lemmas -/

theorem tickMeasure_lastIntervention (state : State) (now : ℤ) :
    (tickMeasure state now).lastIntervention = state.lastIntervention := rfl

theorem tickMeasure_policy (state : State) (now : ℤ) :
    (tickMeasure state now).policy = state.policy := rfl

theorem tickMeasure_session (state : State) (now : ℤ) :
    (tickMeasure state now).session = state.session := rfl

theorem tickIntervene_policy (state : State) (now : ℤ) (env : Env) :
    (tickIntervene state now env).1.policy = state.policy := by
  simp only [tickIntervene]
  split_ifs <;> rfl

/-- On an active session, `tick` is the composition of the three stages. -/
theorem tick_active (state : State) (now : ℤ) (env : Env)
    (h : state.session.active = true) :
    tick state now env =
      ((tickIntervene (tickEval (tickMeasure state now) now).1 now env).1,
        ⟨true, (tickEval (tickMeasure state now) now).2,
          (tickIntervene (tickEval (tickMeasure state now) now).1 now env).2⟩) := by
  rw [tick, if_neg (by simp [h])]

/-- When the outstanding record is due, `tickEval` consumes it: the policy
is replaced by the evaluated one and the record is cleared. -/
theorem tickEval_due (state : State) (now : ℤ) (li : InterventionRecord)
    (hli : state.lastIntervention = some li)
    (hdue : EVAL_WINDOW_MS ≤ now - li.appliedAt) :
    tickEval state now =
      ({ state with
          policy := updateBanditArm state.policy li.type
            (deltaToReward ((state.metrics.focusScore - li.preScore : ℤ) : ℚ)),
          lastIntervention := none }, true) := by
  simp only [tickEval, hli]
  rw [if_pos hdue]
  simp [evaluateIntervention, hli]

/-- `tickIntervene` reports a dispatch exactly when the music gate is open,
no alarm just fired, and `shouldIntervene` says yes on the state it was
given. -/
theorem tickIntervene_dispatched_iff (state : State) (now : ℤ) (env : Env) :
    (tickIntervene state now env).2 ≠ none ↔
      env.musicAvailable = true ∧ env.recentAlarm = false ∧
      (shouldIntervene state now).should = true := by
  simp only [tickIntervene]
  by_cases hg : env.musicAvailable = true ∧ env.recentAlarm = false
  · rw [if_pos hg]
    by_cases hs : (shouldIntervene state now).should
    · rw [if_pos hs]
      constructor
      · intro _
        exact ⟨hg.1, hg.2, hs⟩
      · intro _
        split <;> simp
    · rw [if_neg hs]
      constructor
      · intro h
        exact absurd rfl h
      · intro hh
        exact absurd hh.2.2 hs
  · rw [if_neg hg]
    constructor
    · intro h
      exact absurd rfl h
    · intro hh
      exact absurd ⟨hh.1, hh.2.1⟩ hg

/-- `shouldIntervene` says yes when the session is studying, no cooldown is
pending, and the score is below the mode threshold. -/
theorem shouldIntervene_low_focus (state : State) (now th : ℤ)
    (hactive : state.session.active = true)
    (hphase : state.session.phase = "study")
    (hli : state.lastIntervention = none)
    (hth : thresholdOf state.session.mode = some th)
    (hsc : state.metrics.focusScore < th) :
    (shouldIntervene state now).should = true := by
  rw [shouldIntervene, if_neg (by simp [hactive, hphase])]
  simp only [hli, hth]
  rw [if_neg (by simp)]
  rw [if_pos (by simpa using hsc)]

/-! ## Claims about the orchestration loop (C6, C7, C10) -/

/-- C6 (amended): `stopSession` sets `session.active := false`, clears the
`focus-tick` alarm and resets the module variables, and a subsequent tick
against the stopped state is a no-op (neither the evaluator nor the
dispatcher runs); however the outstanding Intervention Record and the
signal counters are left untouched in the persisted state — they are only
reset when the next session starts. -/
theorem stopSession_halts_but_keeps_record (w : World) :
    (stopSession w).state.session.active = false ∧
    (stopSession w).tickAlarmActive = false ∧
    (stopSession w).offTaskStart = none ∧
    (stopSession w).currentTabUrl = none ∧
    (stopSession w).state.lastIntervention = w.state.lastIntervention ∧
    (stopSession w).state.signals = w.state.signals ∧
    (∀ (now : ℤ) (env : Env),
      tick (stopSession w).state now env =
        ((stopSession w).state, ⟨false, false, none⟩)) := by
  refine ⟨rfl, rfl, rfl, rfl, rfl, rfl, ?_⟩
  intro now env
  rw [tick, if_pos (show (stopSession w).state.session.active = false from rfl)]

/-- C7 (amended): on a tick whose outstanding Intervention Record is due,
the Feedback Evaluator always runs, and running it does not exclude a
dispatch: the record is cleared before the intervention check, and the
same tick dispatches a new intervention exactly when music is available,
no alarm just fired, and `shouldIntervene` holds on the post-evaluation
state (whose cooldown gate is open because the record was cleared). -/
theorem tick_eval_and_dispatch_same_tick (state : State) (now : ℤ) (env : Env)
    (li : InterventionRecord)
    (hactive : state.session.active = true)
    (hli : state.lastIntervention = some li)
    (hdue : EVAL_WINDOW_MS ≤ now - li.appliedAt) :
    (tick state now env).2.evaluated = true ∧
    ((tick state now env).2.dispatched ≠ none ↔
      env.musicAvailable = true ∧ env.recentAlarm = false ∧
      (shouldIntervene (tickEval (tickMeasure state now) now).1 now).should = true) := by
  rw [tick_active state now env hactive]
  have hli1 : (tickMeasure state now).lastIntervention = some li := by
    rw [tickMeasure_lastIntervention, hli]
  constructor
  · show (tickEval (tickMeasure state now) now).2 = true
    rw [tickEval_due _ _ li hli1 hdue]
  · exact tickIntervene_dispatched_iff _ _ _

/-- C10: an outstanding record whose `type` names an arm absent from
`policy.arms` is still evaluated (`evaluateIntervention` reports success
with the policy unchanged, since `updateBanditArm` is a no-op for unknown
arms), and the due tick clears the record, consuming it without touching
any arm. -/
theorem unknownArm_record_consumed (state : State) (now : ℤ) (env : Env)
    (li : InterventionRecord)
    (hactive : state.session.active = true)
    (hli : state.lastIntervention = some li)
    (hdue : EVAL_WINDOW_MS ≤ now - li.appliedAt)
    (harm : lookupKey state.policy.arms li.type = none) :
    (∀ score : ℤ, evaluateIntervention state score =
      some ⟨score - li.preScore, deltaToReward ((score - li.preScore : ℤ) : ℚ),
        state.policy, li.type⟩) ∧
    (tick state now env).2.evaluated = true ∧
    (tickEval (tickMeasure state now) now).1.lastIntervention = none ∧
    (tickEval (tickMeasure state now) now).1.policy = state.policy ∧
    (tick state now env).1.policy = state.policy := by
  have hli1 : (tickMeasure state now).lastIntervention = some li := by
    rw [tickMeasure_lastIntervention, hli]
  have harm1 : lookupKey (tickMeasure state now).policy.arms li.type = none := by
    rw [tickMeasure_policy]
    exact harm
  have heval := tickEval_due (tickMeasure state now) now li hli1 hdue
  have hpol1 : (tickEval (tickMeasure state now) now).1.policy = state.policy := by
    rw [heval]
    show updateBanditArm (tickMeasure state now).policy li.type _ = state.policy
    rw [updateBanditArm, harm1, tickMeasure_policy]
  refine ⟨?_, ?_, ?_, hpol1, ?_⟩
  · intro score
    simp [evaluateIntervention, hli, updateBanditArm, harm]
  · rw [tick_active state now env hactive]
    show (tickEval (tickMeasure state now) now).2 = true
    rw [heval]
  · rw [heval]
  · rw [tick_active state now env hactive]
    show (tickIntervene (tickEval (tickMeasure state now) now).1 now env).1.policy = _
    rw [tickIntervene_policy, hpol1]



/-! ## Concrete states for counterexamples and witnesses -/

def baseSignals : Signals := ⟨[], [], none, none, 0, 0, 0, false, false, false, false, false, 0, 0, 0⟩
def baseSettings : Settings := ⟨false, some true, 50⟩
def baseMetrics : Metrics := ⟨100, 100, 0, [], []⟩
def baseSession : Session := ⟨true, "normal", "study", some 0⟩
def baseState : State := ⟨baseSession, baseSignals, baseMetrics, none, defaultPolicy, baseSettings, []⟩

def c1Signals : Signals := { baseSignals with currentCategory := some "neutral", lastMouseMove := 1000000 }

set_option maxHeartbeats 1000000 in
/-- C1 counterexample: in strict mode with a neutral current site, the flat
−5 strict deduction hits the score (93) but is not itemized, so
`round(clamp(100 + Σbonuses − Σpenalties, 0, 100))` computed from the
returned lists gives 98 instead — the claimed formula fails. -/
theorem computeFocusScore_strict_formula_cex :
    (computeFocusScore c1Signals baseSettings "strict" 1000000).score = 93 ∧
    round (qclamp (100
      + sumItems (computeFocusScore c1Signals baseSettings "strict" 1000000).bonuses
      - sumItems (computeFocusScore c1Signals baseSettings "strict" 1000000).penalties) 0 100) = 98 ∧
    (computeFocusScore c1Signals baseSettings "strict" 1000000).score ≠
      round (qclamp (100
        + sumItems (computeFocusScore c1Signals baseSettings "strict" 1000000).bonuses
        - sumItems (computeFocusScore c1Signals baseSettings "strict" 1000000).penalties) 0 100) := by
  have hres : computeFocusScore c1Signals baseSettings "strict" 1000000 =
      ⟨93, [⟨"badSite", some "neutral", 5/2⟩], [], ⟨0, "neutral", 0, 0⟩⟩ := by
    simp [computeFocusScore, c1Signals, baseSignals, tabPenaltyOf, switchRateOf, pruneTimestamps,
      categoryMultiplierOf, currentCategoryOf, getCategoryPenalty, modeConfig, clamp01,
      idleMsOf, lastActivityOf, idlePenaltyOf, doomPenaltyOf, isBadCategory, badCategories,
      badSiteTimeMsOf, prolongedPenaltyOf, strictFlatAdjust, faceMissingPenaltyOf,
      lookingAwayPenaltyOf, typingBonusOf, intClamp, String.reduceEq, round_eq]
    norm_num [min_def, max_def, abs_of_nonneg, Int.floor_eq_iff]
  have h98 : round (qclamp (100
      + sumItems (computeFocusScore c1Signals baseSettings "strict" 1000000).bonuses
      - sumItems (computeFocusScore c1Signals baseSettings "strict" 1000000).penalties) 0 100)
      = 98 := by
    rw [hres]
    norm_num [sumItems, qclamp, round_eq, min_def, max_def, Int.floor_eq_iff]
  refine ⟨by rw [hres], h98, ?_⟩
  rw [h98, hres]
  decide

def c2State : State := { baseState with lastIntervention := some ⟨"BOOST_ENERGY", 0, 70⟩ }

theorem c2_witness :
    evaluateIntervention c2State 80 =
      some ⟨80 - 70, deltaToReward ((80 - 70 : ℤ) : ℚ),
        updateBanditArm c2State.policy "BOOST_ENERGY" (deltaToReward ((80 - 70 : ℤ) : ℚ)),
        "BOOST_ENERGY"⟩ :=
  evaluateIntervention_reward_update.1 c2State 80 ⟨"BOOST_ENERGY", 0, 70⟩ rfl

def c3State : State :=
  { baseState with
    metrics := { baseMetrics with focusScore := 50 },
    lastIntervention := some ⟨"BOOST_ENERGY", 0, 80⟩ }

theorem c3_witness :
    (shouldIntervene c3State 29999).should = false ∧
    (shouldIntervene c3State 30000).should = true :=
  ⟨(shouldIntervene_cooldown_gate c3State 29999 30000 ⟨"BOOST_ENERGY", 0, 80⟩
      rfl rfl rfl rfl).1 (by decide),
   (shouldIntervene_cooldown_gate c3State 30000 30000 ⟨"BOOST_ENERGY", 0, 80⟩
      rfl rfl rfl rfl).2.1 60 rfl (by decide) (by decide)⟩

theorem c4_witness :
    selectArmUCB ⟨[("BOOST_ENERGY", ⟨1/2, 1⟩), ("SWITCH_PLAYLIST", ⟨1/2, 2⟩)]⟩ true
      = "BOOST_ENERGY" ∧
    selectArmUCB ⟨[("SWITCH_PLAYLIST", ⟨1/2, 2⟩), ("BOOST_ENERGY", ⟨1/2, 1⟩)]⟩ true
      = "BOOST_ENERGY" :=
  selectArmUCB_spec.2.2.2 "BOOST_ENERGY" "SWITCH_PLAYLIST" (1/2) 1 2
    (by decide) (by decide) (by decide) (by decide)

def c5State : State :=
  { baseState with
    session := ⟨true, "strict", "study", some 0⟩,
    settings := ⟨true, some true, 50⟩ }

theorem c5_witness : selectIntervention c5State true 0 = "NUCLEAR" :=
  selectIntervention_nuclear c5State 0 rfl rfl

def c6World : World :=
  ⟨{ baseState with lastIntervention := some ⟨"BOOST_ENERGY", 0, 80⟩ }, true, some 5, some "url"⟩

theorem stopSession_keeps_record_cex :
    (stopSession c6World).state.lastIntervention ≠ none := by
  simp [stopSession, c6World, baseState]

def c7Signals : Signals :=
  { baseSignals with
    tabSwitches := List.replicate 20 44000,
    currentCategory := some "socialMedia",
    lastMouseMove := 45000,
    scrollCount := 40,
    isDoomscrolling := true }

def c7State : State :=
  { baseState with
    signals := c7Signals,
    lastIntervention := some ⟨"BOOST_ENERGY", 0, 80⟩ }

def c7Env : Env := ⟨true, false, fun _ => true⟩

set_option maxHeartbeats 4000000 in
theorem tick_evaluates_and_dispatches_cex :
    (tick c7State 45000 c7Env).2.evaluated = true ∧
    (tick c7State 45000 c7Env).2.dispatched = some "WHITE_NOISE" := by
  rw [tick_active c7State 45000 c7Env rfl]
  simp [tickMeasure, tickEval, tickIntervene, updateSiteTime, evaluateIntervention,
    shouldIntervene, selectIntervention, computeFocusScore, updateEMA, computeTrendDelta,
    updateBanditArm, updateArm, deltaToReward, lookupKey, defaultPolicy,
    c7State, c7Signals, baseState, baseSignals, baseSession, baseMetrics, baseSettings,
    tabPenaltyOf, switchRateOf, pruneTimestamps, categoryMultiplierOf, currentCategoryOf,
    getCategoryPenalty, modeConfig, clamp01, idleMsOf, lastActivityOf, idlePenaltyOf,
    doomPenaltyOf, isBadCategory, badCategories, badSiteTimeMsOf, prolongedPenaltyOf,
    strictFlatAdjust, faceMissingPenaltyOf, lookingAwayPenaltyOf, typingBonusOf, intClamp,
    cooldownOf, thresholdOf, trendThresholdOf, EVAL_WINDOW_MS, HISTORY_MAX_ENTRIES,
    c7Env, String.reduceEq, round_eq]
  norm_num [min_def, max_def, abs_of_nonneg, String.reduceEq]

theorem c7_witness :
    (tick c7State 45000 c7Env).2.evaluated = true ∧
    ((tick c7State 45000 c7Env).2.dispatched ≠ none ↔
      c7Env.musicAvailable = true ∧ c7Env.recentAlarm = false ∧
      (shouldIntervene (tickEval (tickMeasure c7State 45000) 45000).1 45000).should = true) :=
  tick_eval_and_dispatch_same_tick c7State 45000 c7Env ⟨"BOOST_ENERGY", 0, 80⟩
    rfl rfl (by norm_num [EVAL_WINDOW_MS])

theorem c8_witness :
    policyOK (applyUpdates defaultPolicy [("BOOST_ENERGY", 1), ("NUCLEAR", 0)]) :=
  (bandit_policy_invariant defaultPolicy [("BOOST_ENERGY", 1), ("NUCLEAR", 0)]
    (by
      intro p hp
      simp [defaultPolicy] at hp
      rcases hp with h | h | h | h | h <;> rw [h] <;>
        exact ⟨by norm_num, by norm_num, by norm_num⟩)
    (by
      intro u hu
      simp at hu
      rcases hu with h | h <;> rw [h] <;> exact ⟨by norm_num, by norm_num⟩)).1

theorem c9_witness :
    selectArmUCB ⟨[("NUCLEAR", ⟨1/5, 1⟩)]⟩ true = "BOOST_ENERGY" :=
  selectArmUCB_default_fallback ⟨[("NUCLEAR", ⟨1/5, 1⟩)]⟩
    (fun p hp => by rw [List.mem_singleton.mp hp])

def c10State : State := { baseState with lastIntervention := some ⟨"GHOST_ARM", 0, 80⟩ }

def c10Env : Env := ⟨false, true, fun _ => false⟩

theorem c10_witness :
    (tickEval (tickMeasure c10State 45000) 45000).1.lastIntervention = none ∧
    (tickEval (tickMeasure c10State 45000) 45000).1.policy = c10State.policy :=
  let h := unknownArm_record_consumed c10State 45000 c10Env ⟨"GHOST_ARM", 0, 80⟩
    rfl rfl (by norm_num [EVAL_WINDOW_MS]) (by decide)
  ⟨h.2.2.1, h.2.2.2.1⟩

end LockInDJ
